import Mathlib

/-
Verification of the chat-with-docs ingestion and question-answering layer.

The development shallowly embeds the Python modules
`document_processor.py`, `vector_store.py`, `qa_system.py` and `config.py`:
text is a list of characters, Python exceptions become `Except`,
mutation of `self` becomes explicit state passing, and the external
collaborators (the two langchain text splitters, the FAISS index, the
embedding and completion capabilities, the filesystem) are parameters or
explicitly modelled outcomes.
-/

/- Configuration constants from `config.py`. -/

/-- Config.CHUNK_SIZE from `config.py`. -/
def CHUNK_SIZE : Nat := 1000

/-- Config.TOP_K_RESULTS from `config.py`.  Modelled as an integer because it
is used where Python expects an int argument `k`. -/
def TOP_K_RESULTS : Int := 4

/- Chunking model, from `document_processor.py`. -/

/-- Manual fixed-width chunking, the tertiary fallback tier of
`DocumentProcessor.process_file` / `process_url`:
`chunks = [text[i:i+chunk_size] for i in range(0, len(text), chunk_size)]`.
Python `range(0, n, step)` with `step > 0` enumerates `ceil(n / step)` values
`0, step, 2*step, ...`, and the slice `text[i:i+size]` is `(text.drop i).take size`. -/
def manualChunks (text : List Char) (size : Nat) : List (List Char) :=
  (List.range ((text.length + size - 1) / size)).map fun i => (text.drop (i * size)).take size

/-- Python `str.strip()` on a list of characters: drop whitespace from both
ends.  `Char.isWhitespace` covers space, tab, carriage return and newline,
which is the whitespace that occurs in the texts handled here. -/
def pyStrip (l : List Char) : List Char :=
  List.rdropWhile Char.isWhitespace (List.dropWhile Char.isWhitespace l)

/-- Metadata attached to an emitted document.  The source dictionary also
carries `source`, `file_type` and `file_name`/`title` fields, which are
constant across one call and irrelevant to the verified properties; the
per-chunk `chunk_id` field is the one assigned in the emission loop. -/
structure DocMetadata where
  chunk_id : Nat
deriving DecidableEq

/-- A langchain `Document` as produced by the emission loop: trimmed page
content plus metadata. -/
structure LCDocument where
  page_content : List Char
  metadata : DocMetadata
deriving DecidableEq

/-- Emission loop shared verbatim by `process_file` (lines 69-75) and
`process_url` (lines 141-145): enumerate the chunks, keep those that are
truthy (non-empty) after `strip()`, and emit the stripped text with
`chunk_id` set to the enumeration index. -/
def emitDocuments (chunks : List (List Char)) : List LCDocument :=
  (chunks.enum.filter fun p => !(pyStrip p.2).isEmpty).map
    fun p => { page_content := pyStrip p.2, metadata := { chunk_id := p.1 } }

/-- Three-tier splitter cascade of `process_file` / `process_url`
(lines 56-66 resp. 123-134).  The primary (paragraph) and secondary
(newline) splitters are external langchain code, so their outcomes — a chunk
list or a raised error — are parameters; when both fail the code falls back
to `manualChunks` with `Config.CHUNK_SIZE`. -/
def splitWithFallbacks (primary secondary : Except String (List (List Char)))
    (text : List Char) : List (List Char) :=
  match primary with
  | Except.ok cs => cs
  | Except.error _ =>
    match secondary with
    | Except.ok cs => cs
    | Except.error _ => manualChunks text CHUNK_SIZE

/-- Chunking-and-emission pipeline shared by `process_file` and
`process_url`: select the chunk list via the fallback cascade, then run the
emission loop. -/
def process_documents (primary secondary : Except String (List (List Char)))
    (text : List Char) : List LCDocument :=
  emitDocuments (splitWithFallbacks primary secondary text)

/- Vector store lifecycle model, from `vector_store.py`.  The FAISS index,
the embedding capability and the filesystem are external collaborators:
index construction and insertion are passed in as functions, the on-disk
directory is an explicit optional value, and `self.vector_store` becomes the
single field of an explicit manager state. -/

/-- External FAISS index handle: the only introspection the wrapper uses is
`index.ntotal`, the total number of stored entries. -/
structure FaissIndex where
  ntotal : Nat
deriving DecidableEq

/-- External FAISS vector store handle (`langchain_community.vectorstores.FAISS`). -/
structure FAISSStore where
  index : FaissIndex
deriving DecidableEq

/-- State of a `VectorStoreManager`: the mutable `self.vector_store` field,
`None` until a store is created or loaded. -/
structure VectorStoreManager where
  vector_store : Option FAISSStore
deriving DecidableEq

/-- Contents of the persisted store directory at `Config.VECTOR_DB_PATH`. -/
structure PersistedStoreDir where
  saved : FAISSStore
deriving DecidableEq

/-- VectorStoreManager.create_vector_store (lines 22-28).  `fromDocs` is the
external `FAISS.from_documents` (embedding plus index construction).  The
result pairs the post-call manager state with either the raised error — the
Python `ValueError` on an empty list, before any assignment happens — or the
created store, which is also assigned to `self.vector_store`. -/
def create_vector_store (fromDocs : List LCDocument → FAISSStore)
    (m : VectorStoreManager) (documents : List LCDocument) :
    VectorStoreManager × Except String FAISSStore :=
  if documents.isEmpty then
    (m, Except.error "No documents provided to create vector store")
  else
    let s := fromDocs documents
    ({ m with vector_store := some s }, Except.ok s)

/-- VectorStoreManager.add_documents (lines 30-38).  Returns immediately on
an empty list; otherwise lazily creates the store via `create_vector_store`
or appends via the external `vector_store.add_documents`, modelled by
`addToStore`. -/
def add_documents (fromDocs : List LCDocument → FAISSStore)
    (addToStore : FAISSStore → List LCDocument → FAISSStore)
    (m : VectorStoreManager) (documents : List LCDocument) :
    VectorStoreManager × Except String Unit :=
  if documents.isEmpty then
    (m, Except.ok ())
  else
    match m.vector_store with
    | none =>
      let r := create_vector_store fromDocs m documents
      (r.1, r.2.map fun _ => ())
    | some s => ({ m with vector_store := some (addToStore s documents) }, Except.ok ())

/-- VectorStoreManager.load_vector_store (lines 49-63).  The disk state is
`none` when `os.path.exists(self.store_path)` is false, and otherwise holds
the outcome of the external `FAISS.load_local` call: a deserialized store or
a raised error.  The whole body is wrapped in try/except, so the function
returns a boolean in every case; the error case reports and returns `False`
without assigning `self.vector_store`. -/
def load_vector_store (m : VectorStoreManager)
    (disk : Option (Except String FAISSStore)) : VectorStoreManager × Bool :=
  match disk with
  | none => (m, false)
  | some (Except.ok s) => ({ m with vector_store := some s }, true)
  | some (Except.error _) => (m, false)

/-- VectorStoreManager.delete_vector_store (lines 89-95): remove the
persisted directory when present, then reset `self.vector_store` to `None`. -/
def delete_vector_store (m : VectorStoreManager) (disk : Option PersistedStoreDir) :
    VectorStoreManager × Option PersistedStoreDir :=
  ({ m with vector_store := none },
    match disk with
    | some _ => none
    | none => none)

/-- VectorStoreManager.get_document_count (lines 97-101): 0 when
uninitialized, else `self.vector_store.index.ntotal`. -/
def get_document_count (m : VectorStoreManager) : Nat :=
  match m.vector_store with
  | none => 0
  | some s => s.index.ntotal

/-- Python `k or default` for an optional int argument: `None` and `0` are
falsy, every other int is truthy. -/
def pyOrInt (k : Option Int) (d : Int) : Int :=
  match k with
  | none => d
  | some v => if v = 0 then d else v

/-- VectorStoreManager.similarity_search (lines 65-71).  `searchOnStore` is
the external index's nearest-neighbor query; the wrapper raises when the
store is uninitialized and otherwise delegates with
`k = k or Config.TOP_K_RESULTS`. -/
def similarity_search (searchOnStore : FAISSStore → String → Int → List LCDocument)
    (m : VectorStoreManager) (query : String) (k : Option Int) :
    Except String (List LCDocument) :=
  match m.vector_store with
  | none => Except.error "No vector store available for search"
  | some s => Except.ok (searchOnStore s query (pyOrInt k TOP_K_RESULTS))

/-- VectorStoreManager.similarity_search_with_score (lines 73-79), identical
to `similarity_search` except that the external query returns scored pairs;
the score type is opaque (the library returns floats). -/
def similarity_search_with_score {σ : Type}
    (searchOnStore : FAISSStore → String → Int → List (LCDocument × σ))
    (m : VectorStoreManager) (query : String) (k : Option Int) :
    Except String (List (LCDocument × σ)) :=
  match m.vector_store with
  | none => Except.error "No vector store available for search"
  | some s => Except.ok (searchOnStore s query (pyOrInt k TOP_K_RESULTS))

/- Answer orchestrator model, from `qa_system.py`.  The retrieval chain —
retriever plus external completion capability — is opaque; one call to it
either yields a result dictionary (answer text plus retrieved source
documents) or raises, so its outcome is a parameter of type `Except`. -/

/-- Result dictionary of one retrieval-chain invocation:
`result["result"]` and `result["source_documents"]`. -/
structure ChainResult where
  result : String
  source_documents : List LCDocument
deriving DecidableEq

/-- Entry of the `source_documents` list assembled by `ask_question`
(lines 77-82): displayed content plus the chunk's metadata. -/
structure SourceInfo where
  content : List Char
  metadata : DocMetadata
deriving DecidableEq

/-- Response dictionary returned by `ask_question`: the success shape has no
`error` key (`none`), the failure shape carries the caught exception text. -/
structure QAResponse where
  answer : String
  source_documents : List SourceInfo
  question : String
  error : Option String
deriving DecidableEq

/-- Apology text of the structured error response (line 88):
the Python f-string prefix before the interpolated exception text. -/
def apologyText : String := "抱歉，处理您的问题时出现错误："

/-- Error message raised by `setup_qa_chain` when no store exists (line 47). -/
def noStoreError : String := "No vector store available. Please add documents first."

/-- QASystem.setup_qa_chain (lines 44-61): raises when the manager holds no
vector store, otherwise builds the chain (external, nothing to model). -/
def setup_qa_chain (m : VectorStoreManager) : Except String Unit :=
  match m.vector_store with
  | none => Except.error noStoreError
  | some _ => Except.ok ()

/-- Display truncation in `ask_question` (line 79):
`doc.page_content[:200] + "..." if len(doc.page_content) > 200 else
doc.page_content`. -/
def truncateContent (c : List Char) : List Char :=
  if 200 < c.length then c.take 200 ++ ('.' :: '.' :: '.' :: []) else c

/-- Source-document formatting of `ask_question` (lines 77-82): truncated
content plus the chunk's metadata. -/
def formatSourceInfo (d : LCDocument) : SourceInfo :=
  { content := truncateContent d.page_content, metadata := d.metadata }

/-- QASystem.ask_question (lines 63-92).  The try block first runs
`setup_qa_chain` and then the chain call (outcome `chainCall`); any raised
error is caught by the except block, which returns the structured apology
response with an empty source list.  On success the response carries the
answer and the formatted source documents. -/
def ask_question (m : VectorStoreManager) (chainCall : Except String ChainResult)
    (question : String) : QAResponse :=
  match (match setup_qa_chain m with
         | Except.error e => Except.error e
         | Except.ok _ => chainCall) with
  | Except.ok r =>
    { answer := r.result,
      source_documents := r.source_documents.map formatSourceInfo,
      question := question,
      error := none }
  | Except.error e =>
    { answer := apologyText ++ e,
      source_documents := [],
      question := question,
      error := some e }

/-- One entry of the conversation history; `chat.get('question', '')` and
`chat.get('answer', '')` always yield strings, modelled as total fields. -/
structure ChatTurn where
  question : String
  answer : String
deriving DecidableEq

/-- History folding of `chat_with_history` (lines 108-110): iterate over
`chat_history[-3:]` — the most recent 3 turns — accumulating
`"Q: {q}\nA: {a}\n\n"` onto an initially empty string. -/
def historyContext (hist : List ChatTurn) : String :=
  (hist.drop (hist.length - 3)).foldl
    (fun acc c => acc ++ ("Q: " ++ c.question ++ "\nA: " ++ c.answer ++ "\n\n")) ""

/-- Question enhancement of `chat_with_history` (lines 112-115): when the
folded history context is truthy (non-empty) the question is embedded after
it; otherwise the question is left unchanged. -/
def enhancedQuestion (question : String) (hist : List ChatTurn) : String :=
  if historyContext hist ≠ "" then
    "基于以下对话历史：\n" ++ historyContext hist ++ "\n当前问题：" ++ question
  else question

/-- QASystem.chat_with_history (lines 102-117): default the `None` history
to `[]`, enhance the question, and delegate to `ask_question`. -/
def chat_with_history (m : VectorStoreManager) (chainCall : Except String ChainResult)
    (question : String) (chat_history : Option (List ChatTurn)) : QAResponse :=
  ask_question m chainCall (enhancedQuestion question (chat_history.getD []))

/- Lemmas about the tertiary chunking tier. -/

theorem manualChunks_nil (size : Nat) (hs : 0 < size) : manualChunks [] size = [] := by
  simp only [manualChunks, List.length_nil]
  rw [Nat.zero_add, Nat.div_eq_of_lt (by omega : size - 1 < size)]
  rfl

theorem manualChunks_cons (text : List Char) (size : Nat) (hs : 0 < size)
    (ht : text ≠ []) :
    manualChunks text size = text.take size :: manualChunks (text.drop size) size := by
  have hn : 0 < text.length := List.length_pos.mpr ht
  have hceil : (text.length + size - 1) / size
      = ((text.drop size).length + size - 1) / size + 1 := by
    rw [List.length_drop]
    rcases le_or_lt text.length size with h | h
    · have h1 : text.length - size = 0 := by omega
      rw [h1, show text.length + size - 1 = (text.length - 1) + size by omega,
        Nat.add_div_right _ hs, Nat.div_eq_of_lt (by omega : text.length - 1 < size),
        show 0 + size - 1 = size - 1 by omega,
        Nat.div_eq_of_lt (by omega : size - 1 < size)]
    · rw [show text.length + size - 1 = (text.length - size + size - 1) + size by omega,
        Nat.add_div_right _ hs]
  simp only [manualChunks, hceil, List.range_succ_eq_map, List.map_cons, List.map_map]
  congr 1
  · simp
  · refine List.map_congr_left fun i _ => ?_
    simp only [Function.comp_apply, List.drop_drop]
    rw [show Nat.succ i * size = size + i * size by rw [Nat.succ_mul]; omega]

theorem manualChunks_flatten_aux (size : Nat) (hs : 0 < size) :
    ∀ (n : Nat) (text : List Char), text.length ≤ n →
      (manualChunks text size).flatten = text := by
  intro n
  induction n with
  | zero =>
    intro text h
    have ht : text = [] := List.length_eq_zero.mp (Nat.le_zero.mp h)
    subst ht
    rw [manualChunks_nil size hs]
    rfl
  | succ n ih =>
    intro text h
    by_cases ht : text = []
    · subst ht; rw [manualChunks_nil size hs]; rfl
    · have hp : 0 < text.length := List.length_pos.mpr ht
      rw [manualChunks_cons text size hs ht, List.flatten_cons,
        ih (text.drop size) (by rw [List.length_drop]; omega),
        List.take_append_drop]

theorem manualChunks_flatten (text : List Char) (size : Nat) (hs : 0 < size) :
    (manualChunks text size).flatten = text :=
  manualChunks_flatten_aux size hs text.length text (Nat.le_refl _)

/-- C2: for every input text and every positive target chunk size, the
tertiary (manual fixed-width) chunking tier produces chunks whose
concatenation is the input text itself (hence of total character count equal
to the input length) and whose number equals `ceil(length / target_size)`,
written `(length + size - 1) / size` in natural-number arithmetic. -/
theorem C2_manual_chunking (text : List Char) (size : Nat) (hs : 0 < size) :
    (manualChunks text size).flatten = text ∧
    ((manualChunks text size).flatten).length = text.length ∧
    (manualChunks text size).length = (text.length + size - 1) / size := by
  have hf := manualChunks_flatten text size hs
  refine ⟨hf, by rw [hf], ?_⟩
  simp [manualChunks]

/-- Witness for C2 at the concrete text "abcde" and target size 2. -/
theorem C2_manual_chunking_witness :
    0 < 2 ∧
    ((manualChunks ('a' :: 'b' :: 'c' :: 'd' :: 'e' :: []) 2).flatten
        = ('a' :: 'b' :: 'c' :: 'd' :: 'e' :: []) ∧
      ((manualChunks ('a' :: 'b' :: 'c' :: 'd' :: 'e' :: []) 2).flatten).length
        = ('a' :: 'b' :: 'c' :: 'd' :: 'e' :: ([] : List Char)).length ∧
      (manualChunks ('a' :: 'b' :: 'c' :: 'd' :: 'e' :: []) 2).length
        = (('a' :: 'b' :: 'c' :: 'd' :: 'e' :: ([] : List Char)).length + 2 - 1) / 2) :=
  ⟨by decide, C2_manual_chunking ('a' :: 'b' :: 'c' :: 'd' :: 'e' :: []) 2 (by decide)⟩

/- Lemmas about stripping and the emission loop. -/

theorem dropWhile_of_rdropWhile_dropWhile (p : Char → Bool) (l : List Char) :
    List.dropWhile p (List.rdropWhile p (List.dropWhile p l))
      = List.rdropWhile p (List.dropWhile p l) := by
  cases hr : List.rdropWhile p (List.dropWhile p l) with
  | nil => rfl
  | cons a rest =>
    have hpref := List.rdropWhile_prefix p (List.dropWhile p l)
    rw [hr] at hpref
    obtain ⟨t, ht⟩ := hpref
    have hyne : List.dropWhile p l ≠ [] := by
      rw [← ht]; simp
    have hpa : p a = false := by
      have hhd := List.head_dropWhile_not p l hyne
      have h1 : (List.dropWhile p l).head? = some a := by
        rw [← ht]; rfl
      have h2 : (List.dropWhile p l).head? = some ((List.dropWhile p l).head hyne) :=
        List.head?_eq_head hyne
      rw [h1] at h2
      rwa [← Option.some_inj.mp h2] at hhd
    rw [List.dropWhile_cons, hpa]
    simp

theorem pyStrip_idem (l : List Char) : pyStrip (pyStrip l) = pyStrip l := by
  unfold pyStrip
  rw [dropWhile_of_rdropWhile_dropWhile, List.rdropWhile_idempotent]

theorem snd_mem_of_mem_enumFrom {α : Type} :
    ∀ (l : List α) (n : Nat) (q : Nat × α), q ∈ l.enumFrom n → q.2 ∈ l := by
  intro l
  induction l with
  | nil => intro n q h; simp [List.enumFrom] at h
  | cons a t ih =>
    intro n q h
    rw [List.enumFrom_cons] at h
    rcases List.mem_cons.mp h with h1 | h2
    · subst h1; exact List.mem_cons_self a t
    · exact List.mem_cons_of_mem _ (ih (n + 1) q h2)

/-- C1 (amended): every document emitted by the (shared) emission loop of
`process_file` / `process_url` has page content that is non-empty after
trimming, and the `chunk_id` values are strictly increasing in emission
order; but they are positions in the pre-filter chunk sequence, so they are
the contiguous sequence `0, 1, ...` exactly when no whitespace-only chunk is
dropped — in particular whenever every chunk is non-empty after trimming. -/
theorem C1_emitted_documents (chunks : List (List Char)) :
    (∀ d ∈ emitDocuments chunks, pyStrip d.page_content ≠ []) ∧
    ((emitDocuments chunks).map fun d => d.metadata.chunk_id).Pairwise (· < ·) ∧
    ((∀ c ∈ chunks, pyStrip c ≠ []) →
      ((emitDocuments chunks).map fun d => d.metadata.chunk_id)
        = List.range chunks.length) := by
  refine ⟨?_, ?_, ?_⟩
  · intro d hd
    simp only [emitDocuments, List.mem_map, List.mem_filter] at hd
    obtain ⟨p, ⟨hmem, hne⟩, rfl⟩ := hd
    simp only [Bool.not_eq_true'] at hne
    show pyStrip (pyStrip p.2) ≠ []
    rw [pyStrip_idem]
    intro h
    rw [h] at hne
    simp at hne
  · have hpw : (chunks.enum.map Prod.fst).Pairwise (· < ·) := by
      rw [List.enum_map_fst]; exact List.pairwise_lt_range _
    simp only [emitDocuments, List.map_map]
    exact List.Pairwise.sublist
      (List.Sublist.map _ (List.filter_sublist chunks.enum)) hpw
  · intro hall
    have hfe : chunks.enum.filter (fun p => !(pyStrip p.2).isEmpty) = chunks.enum := by
      rw [List.filter_eq_self]
      intro p hp
      have hp2 : p.2 ∈ chunks := snd_mem_of_mem_enumFrom chunks 0 p hp
      simpa using hall p.2 hp2
    simp only [emitDocuments, hfe, List.map_map]
    exact List.enum_map_fst chunks

/-- Witness for C1 on a chunk list with no droppable chunk. -/
theorem C1_emitted_documents_witness :
    (∀ c ∈ (('a' :: []) :: ('b' :: []) :: ([] : List (List Char))), pyStrip c ≠ []) ∧
    ((emitDocuments (('a' :: []) :: ('b' :: []) :: [])).map fun d => d.metadata.chunk_id)
      = List.range (('a' :: []) :: ('b' :: []) :: ([] : List (List Char))).length :=
  ⟨by decide,
    (C1_emitted_documents (('a' :: []) :: ('b' :: []) :: [])).2.2 (by decide)⟩

set_option maxRecDepth 8000 in
/-- C1 fails as stated: feed the pipeline a text of 1000 blanks followed by
one letter, with both external splitters failing, so the tertiary tier slices
it into a whitespace-only chunk followed by a one-letter chunk.  The
whitespace-only chunk is dropped, and the single emitted document carries
`chunk_id = 1`: the ids are not the contiguous sequence starting at 0. -/
theorem C1_counterexample :
    ¬ ((∀ d ∈ process_documents (Except.error "recursion") (Except.error "recursion")
          (List.replicate 1000 ' ' ++ ('a' :: [])), pyStrip d.page_content ≠ []) ∧
      ((process_documents (Except.error "recursion") (Except.error "recursion")
          (List.replicate 1000 ' ' ++ ('a' :: []))).map fun d => d.metadata.chunk_id)
        = List.range (process_documents (Except.error "recursion") (Except.error "recursion")
            (List.replicate 1000 ' ' ++ ('a' :: []))).length) := by
  decide

/- Theorems about the vector store lifecycle. -/

/-- C5: creating a vector store from an empty document list raises the
"no documents" error and leaves the manager state — in particular the
`vector_store` field — exactly as it was. -/
theorem C5_create_empty (fromDocs : List LCDocument → FAISSStore)
    (m : VectorStoreManager) :
    create_vector_store fromDocs m []
        = (m, Except.error "No documents provided to create vector store") ∧
    (create_vector_store fromDocs m []).1.vector_store = m.vector_store :=
  ⟨rfl, rfl⟩

/-- C6: adding an empty document list is a no-op — the call returns normally
and the manager state, hence `get_document_count`, is unchanged, whether or
not the store is initialized. -/
theorem C6_add_empty_noop (fromDocs : List LCDocument → FAISSStore)
    (addToStore : FAISSStore → List LCDocument → FAISSStore)
    (m : VectorStoreManager) :
    add_documents fromDocs addToStore m [] = (m, Except.ok ()) ∧
    get_document_count (add_documents fromDocs addToStore m []).1
      = get_document_count m :=
  ⟨rfl, rfl⟩

/-- C7: load_vector_store always returns a boolean (the embedding is a total
function into `Bool`): `False` with untouched state when the directory is
absent, `True` with the store installed when deserialization succeeds, and
`False` with untouched state when deserialization raises — the error is
caught, not propagated. -/
theorem C7_load_boolean (m : VectorStoreManager) (s : FAISSStore) (e : String) :
    load_vector_store m none = (m, false) ∧
    load_vector_store m (some (Except.ok s)) = ({ m with vector_store := some s }, true) ∧
    load_vector_store m (some (Except.error e)) = (m, false) :=
  ⟨rfl, rfl, rfl⟩

/-- C8: after delete_vector_store the in-memory store is reset, so
get_document_count returns 0; and in general get_document_count returns 0
exactly on the uninitialized state and the external index's `ntotal`
otherwise. -/
theorem C8_delete_then_count (m : VectorStoreManager)
    (disk : Option PersistedStoreDir) (s : FAISSStore) :
    get_document_count (delete_vector_store m disk).1 = 0 ∧
    get_document_count { vector_store := none } = 0 ∧
    get_document_count { vector_store := some s } = s.index.ntotal :=
  ⟨rfl, rfl, rfl⟩

/-- C10: on an initialized store, a falsy `k` — `None` (which is also the
default when the argument is omitted) or `0` — is replaced by
`Config.TOP_K_RESULTS`, for both search variants, so the external query is
performed with the default `k` rather than with zero results requested. -/
theorem C10_falsy_k_default {σ : Type}
    (searchOnStore : FAISSStore → String → Int → List LCDocument)
    (scoredSearch : FAISSStore → String → Int → List (LCDocument × σ))
    (s : FAISSStore) (query : String) :
    similarity_search searchOnStore { vector_store := some s } query none
        = Except.ok (searchOnStore s query TOP_K_RESULTS) ∧
    similarity_search searchOnStore { vector_store := some s } query (some 0)
        = Except.ok (searchOnStore s query TOP_K_RESULTS) ∧
    similarity_search_with_score scoredSearch { vector_store := some s } query none
        = Except.ok (scoredSearch s query TOP_K_RESULTS) ∧
    similarity_search_with_score scoredSearch { vector_store := some s } query (some 0)
        = Except.ok (scoredSearch s query TOP_K_RESULTS) :=
  ⟨rfl, rfl, rfl, rfl⟩

/- Theorems about the answer orchestrator. -/

/-- C4: asked on an uninitialized store — through `ask_question` or
`chat_with_history` — the orchestrator returns the well-formed structured
error response: apology answer text and empty source list, never a
propagated exception (the embedding is a total function into `QAResponse`). -/
theorem C4_uninitialized_store (chainCall : Except String ChainResult)
    (question : String) (chat_history : Option (List ChatTurn)) :
    ask_question { vector_store := none } chainCall question
        = { answer := apologyText ++ noStoreError,
            source_documents := [],
            question := question,
            error := some noStoreError } ∧
    chat_with_history { vector_store := none } chainCall question chat_history
        = { answer := apologyText ++ noStoreError,
            source_documents := [],
            question := enhancedQuestion question (chat_history.getD []),
            error := some noStoreError } :=
  ⟨rfl, rfl⟩

set_option maxRecDepth 8000 in
/-- C3 fails as stated: a chunk of 201 characters is displayed as its first
200 characters followed by the three-character ellipsis `"..."`, a content
field of 203 characters — not at most 200. -/
theorem C3_counterexample :
    200 < (List.replicate 201 'a').length ∧
    ¬ ((formatSourceInfo
          { page_content := List.replicate 201 'a',
            metadata := { chunk_id := 0 } }).content.length ≤ 200) := by
  constructor
  · decide
  · decide

/-- C3 (amended): each cited source document's displayed content is the
chunk content truncated to its first 200 characters with a three-character
ellipsis appended — 203 characters in total — whenever the original chunk
text exceeds 200 characters, and is the unchanged chunk content otherwise. -/
theorem C3_truncated_display (d : LCDocument) :
    (200 < d.page_content.length →
      (formatSourceInfo d).content
          = d.page_content.take 200 ++ ('.' :: '.' :: '.' :: []) ∧
      (formatSourceInfo d).content.length = 203) ∧
    (d.page_content.length ≤ 200 → (formatSourceInfo d).content = d.page_content) := by
  constructor
  · intro h
    have he : (formatSourceInfo d).content
        = d.page_content.take 200 ++ ('.' :: '.' :: '.' :: []) := by
      simp only [formatSourceInfo, truncateContent, if_pos h]
    refine ⟨he, ?_⟩
    rw [he, List.length_append, List.length_take]
    simp only [List.length_cons, List.length_nil]
    omega
  · intro h
    simp only [formatSourceInfo, truncateContent]
    rw [if_neg (by omega)]

set_option maxRecDepth 8000 in
/-- Witness for C3 on a 201-character chunk. -/
theorem C3_truncated_display_witness :
    (formatSourceInfo
        { page_content := List.replicate 201 'a',
          metadata := { chunk_id := 0 } }).content
        = (List.replicate 201 'a').take 200 ++ ('.' :: '.' :: '.' :: []) ∧
    (formatSourceInfo
        { page_content := List.replicate 201 'a',
          metadata := { chunk_id := 0 } }).content.length = 203 :=
  (C3_truncated_display
      { page_content := List.replicate 201 'a', metadata := { chunk_id := 0 } }).1
    (by decide)

/- Lemmas about the history folding. -/

theorem foldl_append_length_le {α : Type} (g : α → String) :
    ∀ (l : List α) (s : String),
      s.length ≤ (l.foldl (fun acc c => acc ++ g c) s).length := by
  intro l
  induction l with
  | nil => intro s; exact Nat.le_refl _
  | cons c t ih =>
    intro s
    simp only [List.foldl_cons]
    have h1 := ih (s ++ g c)
    rw [String.length_append] at h1
    exact Nat.le_trans (Nat.le_add_right _ _) h1

theorem historyContext_ne_empty (hist : List ChatTurn) (h : hist ≠ []) :
    historyContext hist ≠ "" := by
  unfold historyContext
  have hne : hist.drop (hist.length - 3) ≠ [] := by
    rw [← List.length_pos, List.length_drop]
    have := List.length_pos.mpr h
    omega
  cases hd : hist.drop (hist.length - 3) with
  | nil => exact absurd hd hne
  | cons c t =>
    simp only [List.foldl_cons]
    intro heq
    have hlen := foldl_append_length_le
      (fun c => "Q: " ++ c.question ++ "\nA: " ++ c.answer ++ "\n\n") t
      ("" ++ ("Q: " ++ c.question ++ "\nA: " ++ c.answer ++ "\n\n"))
    rw [heq] at hlen
    simp only [String.length_append] at hlen
    have h3 : ("Q: " : String).length = 3 := rfl
    have h0 : ("" : String).length = 0 := rfl
    omega

/-- C9: the history prefix folded by `chat_with_history` depends only on the
most recent 3 turns; with a `None` or empty history the question reaches
`ask_question` unchanged; and with a non-empty history the enhanced question
is the original question with a non-empty textual prefix prepended. -/
theorem C9_history_folding (m : VectorStoreManager)
    (chainCall : Except String ChainResult) (question : String)
    (hist : List ChatTurn) :
    chat_with_history m chainCall question none = ask_question m chainCall question ∧
    chat_with_history m chainCall question (some [])
        = ask_question m chainCall question ∧
    enhancedQuestion question hist
        = enhancedQuestion question (hist.drop (hist.length - 3)) ∧
    (hist ≠ [] →
      ∃ p, p ≠ "" ∧ enhancedQuestion question hist = p ++ question) := by
  have hctx : ∀ h : List ChatTurn,
      historyContext h = historyContext (h.drop (h.length - 3)) := by
    intro h
    have h0 : (h.drop (h.length - 3)).length - 3 = 0 := by
      rw [List.length_drop]; omega
    rw [historyContext, historyContext, h0, List.drop_zero]
  refine ⟨rfl, rfl, ?_, ?_⟩
  · rw [enhancedQuestion, enhancedQuestion, hctx hist]
  · intro h
    have hne := historyContext_ne_empty hist h
    refine ⟨"基于以下对话历史：\n" ++ historyContext hist ++ "\n当前问题：", ?_, ?_⟩
    · intro heq
      have hlen := congrArg String.length heq
      rw [String.length_append, String.length_append] at hlen
      have h10 : ("基于以下对话历史：\n" : String).length = 10 := rfl
      have h0 : ("" : String).length = 0 := rfl
      rw [h10, h0] at hlen
      omega
    · rw [enhancedQuestion, if_pos hne]

/-- Witness for C9 on a one-turn history. -/
theorem C9_history_folding_witness :
    (⟨"q1", "a1"⟩ :: ([] : List ChatTurn)) ≠ [] ∧
    ∃ p, p ≠ "" ∧
      enhancedQuestion "next" (⟨"q1", "a1"⟩ :: []) = p ++ "next" :=
  ⟨by decide,
    (C9_history_folding { vector_store := none } (Except.error "e") "next"
        (⟨"q1", "a1"⟩ :: [])).2.2.2 (by decide)⟩
